import Mathlib

/-!
Shallow embedding of the token-validation and authorization core of the
AI_Image_Explorer microservices backend.

Sources embedded here:
  - `src/auth_service/grpc_server.py` — `AuthServicer.ValidateToken`
  - `src/auth_service/main.py` — `create_access_token`, `register`, `login`
  - `src/api_gateway/dependencies.py` — gateway `get_current_user`
  - `src/api_gateway/main.py` — downstream token re-minting in the
    forwarding handlers (`validate`, `generate_image`, ...)
  - `src/auth_service/dependencies.py` and
    `src/admin_service/dependencies.py` — service-local `get_current_user`
    built on the gRPC `ValidateToken` call

Modelling conventions:
  - Time is a fixed integer `now` (unix seconds) per call.
  - A JWT is modelled structurally: either a malformed string (anything that
    is not a JWT at all) or a payload of claims signed under some secret.
  - `jwt.decode` (python-jose, default options) verifies the signature and,
    when an `exp` claim is present, rejects tokens with `exp < now` with
    "Signature has expired.".  A token without an `exp` claim decodes fine
    (jose does not require `exp` by default).
  - bcrypt hashing via `passlib` is idealised as an injective one-way
    function: `verifyPassword p h` holds exactly when `h` was produced by
    hashing `p`.
  - The relational store is a list of user rows; `db.query(User).filter(
    User.username == u).first()` is a first-match lookup.
  - Redis is an association list from keys to values; values are either raw
    strings (the `"exists"` marker under `user:<u>`) or token strings
    (under `token:<u>`), kept as a sum so that each read site can mirror
    the Python truthiness test and the decode behaviour of the source.
  - A raised `HTTPException(status, detail)` becomes an `httpError` result
    constructor; a returned response becomes an `ok` result.
-/

/-- JWT payload claims as used by this system: `sub`, `role`, `id`, `exp`.
Each is optional because the Python code reads them with `payload.get`. -/
structure Claims where
  sub : Option String
  role : Option String
  id : Option Nat
  exp : Option Int
deriving Repr, DecidableEq

/-- A token string, structurally: either not a JWT at all, or a claims
payload signed under a secret. -/
inductive TokenInput where
  | malformed : TokenInput
  | signed : Claims → String → TokenInput
deriving Repr, DecidableEq

/-- The claims of a token, when it has any. -/
def tokenClaims : TokenInput → Option Claims
  | .malformed => none
  | .signed c _ => some c

/-- `jose.jwt.decode(token, secret, algorithms=[ALGORITHM])` with default
options: signature must verify under `secret`; when an `exp` claim is
present it must not lie in the past.  Error strings are the messages of the
`JWTError`s jose raises on each path. -/
def jwtDecode (secret : String) (now : Int) : TokenInput → Except String Claims
  | .malformed => .error "Not enough segments"
  | .signed c key =>
    if key = secret then
      match c.exp with
      | some e => if e < now then .error "Signature has expired." else .ok c
      | none => .ok c
    else .error "Signature verification failed."

/-- A row of the user store (`models.User`). -/
structure User where
  id : Nat
  username : String
  hashed_password : String
  role : String
deriving Repr, DecidableEq

/-- `db.query(User).filter(User.username == username).first()`. -/
def queryUser (db : List User) (username : String) : Option User :=
  db.find? (fun u => u.username == username)

/-- The gRPC `ValidateTokenResponse` message. -/
structure Verdict where
  valid : Bool
  username : String
  role : String
  error : String
deriving Repr, DecidableEq

/-- `AuthServicer.ValidateToken` from `src/auth_service/grpc_server.py`:
decode the token, reject a missing or falsy `sub`, look the username up in
the store, and answer with a verdict on every path (JWT errors are caught
and turned into `valid=False` verdicts, never transport faults). -/
def ValidateToken (secret : String) (now : Int) (db : List User)
    (tok : TokenInput) : Verdict :=
  match jwtDecode secret now tok with
  | .error e => { valid := false, username := "", role := "", error := e }
  | .ok payload =>
    match payload.sub with
    | none =>
      { valid := false, username := "", role := "", error := "Invalid token payload" }
    | some username =>
      if username = "" then
        { valid := false, username := "", role := "", error := "Invalid token payload" }
      else
        match queryUser db username with
        | none =>
          { valid := false, username := "", role := "", error := "User not found" }
        | some user =>
          { valid := true, username := user.username, role := user.role, error := "" }

/-- A value stored in Redis: either a plain string (such as the `"exists"`
marker) or a token string. -/
inductive CacheVal where
  | str : String → CacheVal
  | tok : TokenInput → CacheVal
deriving Repr, DecidableEq

/-- The Redis cache as an association list. -/
abbrev Cache := List (String × CacheVal)

/-- `redis_client.get(key)`. -/
def cacheGet (c : Cache) (key : String) : Option CacheVal :=
  (c.find? (fun e => e.1 == key)).map (fun e => e.2)

/-- `redis_client.setex(key, ttl, value)`: overwrite the binding for `key`.
The uniform 3600-second TTL is not needed by any claim and is not
modelled. -/
def cacheSetex (c : Cache) (key : String) (v : CacheVal) : Cache :=
  (key, v) :: c.filter (fun e => e.1 != key)

/-- Python truthiness of a `redis_client.get` result: `None` and the empty
string are falsy, everything else is truthy. -/
def cacheTruthy : Option CacheVal → Bool
  | none => false
  | some (.str s) => s != ""
  | some (.tok _) => true

/-- The auth service's shared state: the user store and the Redis cache. -/
structure AuthState where
  db : List User
  cache : Cache
deriving Repr, DecidableEq

/-- `pwd_context.hash` (bcrypt), idealised as an injective one-way map. -/
def hashPassword (p : String) : String := "bcrypt$" ++ p

/-- `pwd_context.verify(password, hashed)`. -/
def verifyPassword (p h : String) : Bool := h == hashPassword p

/-- `create_access_token` from `src/auth_service/main.py`: copy the data
claims (`sub` and `role` at both call sites) and add
`exp = now + 1800` (the 30-minute default `expires_delta`; the IST zone
used there does not change the unix timestamp), then sign. -/
def create_access_token (secret : String) (now : Int) (sub role : String) :
    TokenInput :=
  .signed { sub := some sub, role := some role, id := none, exp := some (now + 1800) }
    secret

/-- Result of an auth service HTTP handler: a token response or a raised
`HTTPException`. -/
inductive AuthResult where
  | ok : TokenInput → AuthResult
  | httpError : Nat → String → AuthResult
deriving Repr, DecidableEq

/-- The database fallback block of `login` (`src/auth_service/main.py`
lines 91-99): look the user up, reject on a missing row or a failed hash
comparison, otherwise mint a fresh token and cache it under
`token:<username>`. -/
def loginDbCheck (secret : String) (now : Int) (username password : String)
    (st : AuthState) : AuthResult × AuthState :=
  match queryUser st.db username with
  | none => (.httpError 401 "Invalid credentials", st)
  | some user =>
    if verifyPassword password user.hashed_password then
      let token := create_access_token secret now user.username user.role
      (.ok token,
       { st with cache := cacheSetex st.cache ("token:" ++ username) (.tok token) })
    else
      (.httpError 401 "Invalid credentials", st)

/-- `login` from `src/auth_service/main.py`: read `token:<username>` from
the cache; a truthy cached token is decoded, and when it decodes the code
reads its `exp` — raising `HTTPException(401, "Token missing expiration")`
when absent (an exception the surrounding `except JWTError` does not
catch), returning the cached token when still in the future, and otherwise
falling through to the database check.  A falsy or undecodable cache value
also falls through (`except JWTError: pass`). -/
def login (secret : String) (now : Int) (username password : String)
    (st : AuthState) : AuthResult × AuthState :=
  match cacheGet st.cache ("token:" ++ username) with
  | some (.tok cached) =>
    match jwtDecode secret now cached with
    | .ok payload =>
      match payload.exp with
      | none => (.httpError 401 "Token missing expiration", st)
      | some e =>
        if e > now then (.ok cached, st)
        else loginDbCheck secret now username password st
    | .error _ => loginDbCheck secret now username password st
  | some (.str _) => loginDbCheck secret now username password st
  | none => loginDbCheck secret now username password st

/-- `register` from `src/auth_service/main.py`: a truthy `user:<username>`
cache entry rejects immediately; a store row rejects after writing the
`"exists"` cache marker; otherwise the user row is inserted (autoincrement
id modelled as the row count) and a fresh token is minted and cached. -/
def register (secret : String) (now : Int) (username password role : String)
    (st : AuthState) : AuthResult × AuthState :=
  if cacheTruthy (cacheGet st.cache ("user:" ++ username)) then
    (.httpError 400 "Username already exists (cached)", st)
  else
    match queryUser st.db username with
    | some _ =>
      (.httpError 400 "Username already exists",
       { st with cache := cacheSetex st.cache ("user:" ++ username) (.str "exists") })
    | none =>
      let newUser : User :=
        { id := st.db.length, username := username,
          hashed_password := hashPassword password, role := role }
      let token := create_access_token secret now username role
      (.ok token,
       { db := st.db ++ [newUser],
         cache := cacheSetex st.cache ("token:" ++ username) (.tok token) })

/-- The gRPC handler viewed as a state transformer over the auth service
state, for side-effect claims: the handler body only opens a session,
reads (`jwt.decode`, one `db.query`) and closes the session, so the state
passes through untouched. -/
def ValidateTokenRpc (secret : String) (now : Int) (tok : TokenInput)
    (st : AuthState) : Verdict × AuthState :=
  (ValidateToken secret now st.db tok, st)

/-- The gateway's pydantic `User` model (`src/api_gateway/dependencies.py`). -/
structure GwUser where
  id : Nat
  username : String
  role : String
deriving Repr, DecidableEq

/-- Result of the gateway authenticator: an identity or a raised
`HTTPException`. -/
inductive GwAuthResult where
  | ok : GwUser → GwAuthResult
  | httpError : Nat → String → GwAuthResult
deriving Repr, DecidableEq

/-- `get_current_user` from `src/api_gateway/dependencies.py`: local decode
with the shared secret; `sub` and `role` must not be `None`
(`payload.get("id", 0)` defaults a missing `id` to 0); a `JWTError`
becomes 401 "Invalid or expired token". -/
def gw_get_current_user (secret : String) (now : Int) (tok : TokenInput) :
    GwAuthResult :=
  match jwtDecode secret now tok with
  | .error _ => .httpError 401 "Invalid or expired token"
  | .ok payload =>
    match payload.sub, payload.role with
    | some username, some role =>
      .ok { id := payload.id.getD 0, username := username, role := role }
    | _, _ => .httpError 401 "Invalid token payload"

/-- The token the gateway re-signs and attaches as the downstream bearer
credential (`src/api_gateway/main.py`, handlers `validate`,
`get_dashboard`, `generate_image`, `search_query`, ...):
`jwt.encode({'sub': user.username, 'role': user.role, 'id': user.id},
JWT_SECRET_KEY, ...)` — note the payload carries no `exp` claim. -/
def gw_downstream_token (secret : String) (u : GwUser) : TokenInput :=
  .signed { sub := some u.username, role := some u.role, id := some u.id, exp := none }
    secret

/-- Outcome of the gRPC round trip as seen by a downstream service: a
verdict reply, or a `grpc.RpcError` at the transport level. -/
inductive RpcOutcome where
  | reply : Verdict → RpcOutcome
  | transportError : String → RpcOutcome
deriving Repr, DecidableEq

/-- Result of a service-local authenticator: a store row or a raised
`HTTPException`. -/
inductive SvcAuthResult where
  | ok : User → SvcAuthResult
  | httpError : Nat → String → SvcAuthResult
deriving Repr, DecidableEq

/-- `get_current_user` from `src/auth_service/dependencies.py` (and, up to
a `Bearer ` strip before the RPC that does not affect the error mapping,
`src/admin_service/dependencies.py`): a `grpc.RpcError` is caught and
re-raised as `HTTPException(401, "gRPC error: ...")`; a `valid=False`
verdict raises `HTTPException(401, "Invalid token: ...")`; a valid verdict
is re-checked against the local user store. -/
def svc_get_current_user (rpc : RpcOutcome) (db : List User) : SvcAuthResult :=
  match rpc with
  | .transportError msg => .httpError 401 ("gRPC error: " ++ msg)
  | .reply response =>
    if !response.valid then
      .httpError 401 ("Invalid token: " ++ response.error)
    else
      match queryUser db response.username with
      | none => .httpError 401 "User not found"
      | some user => .ok user

/-- Sample token: signed under the secret `"s"`, `sub` "alice", role claim
"user", expiring at unix time 100. -/
def aliceToken : TokenInput :=
  .signed { sub := some "alice", role := some "user", id := none, exp := some 100 } "s"

/-- Sample token: signed under the secret `"s"` but with no `sub` claim. -/
def noSubToken : TokenInput :=
  .signed { sub := none, role := some "user", id := none, exp := some 100 } "s"

/-- Sample token: signed under the secret `"s"` with no `exp` claim. -/
def noExpToken : TokenInput :=
  .signed { sub := some "alice", role := some "user", id := none, exp := none } "s"

/-- Sample user row: alice, whose role in the store is "admin". -/
def aliceAdminRow : User :=
  { id := 1, username := "alice", hashed_password := "h", role := "admin" }

/-- Sample user row: alice with the hash of the password "right". -/
def aliceUserRow : User :=
  { id := 0, username := "alice", hashed_password := hashPassword "right",
    role := "user" }

/-- Sample auth state: alice's row in the store, her unexpired token cached. -/
def cachedTokenState : AuthState :=
  { db := [aliceUserRow], cache := [("token:alice", CacheVal.tok aliceToken)] }

/-- Sample auth state: a decodable cached token that carries no `exp` claim. -/
def noExpState : AuthState :=
  { db := [aliceUserRow], cache := [("token:alice", CacheVal.tok noExpToken)] }

/-- Sample auth state: alice's row in the store and an empty cache. -/
def storeOnlyState : AuthState :=
  { db := [aliceUserRow], cache := [] }

/-! ## Theorems -/

/-- Helper: every error `jwtDecode` can produce is a non-empty string. -/
theorem jwtDecode_error_nonempty (secret : String) (now : Int) (tok : TokenInput)
    (e : String) (h : jwtDecode secret now tok = .error e) : e ≠ "" := by
  cases tok with
  | malformed =>
    simp only [jwtDecode, Except.error.injEq] at h
    subst h
    decide
  | signed c key =>
    by_cases hkey : key = secret
    · cases hexp : c.exp with
      | none => simp [jwtDecode, hkey, hexp] at h
      | some x =>
        by_cases hlt : x < now
        · simp only [jwtDecode, hkey, if_true, hexp, hlt, if_pos,
            Except.error.injEq] at h
          subst h
          decide
        · simp [jwtDecode, hkey, hexp, hlt] at h
    · simp only [jwtDecode, hkey, if_false, Except.error.injEq] at h
      subst h
      decide

/-- Claim C1: `ValidateToken` answers every input with a verdict (it is a
total function into `Verdict`, never a transport fault): a token that fails
to decode (invalid signature, malformed, expired) yields `valid=false` with
the decoder's non-empty error; a token that decodes but whose `sub` claim
is absent (or falsy) yields `valid=false` with "Invalid token payload"; a
token with a valid signature whose `sub` names no user in the store yields
`valid=false` with "User not found". -/
theorem ValidateToken_failure_modes (secret : String) (now : Int)
    (db : List User) (tok : TokenInput) :
    (∀ e, jwtDecode secret now tok = .error e →
      ValidateToken secret now db tok =
        { valid := false, username := "", role := "", error := e } ∧ e ≠ "") ∧
    (∀ c, jwtDecode secret now tok = .ok c → (c.sub = none ∨ c.sub = some "") →
      ValidateToken secret now db tok =
        { valid := false, username := "", role := "",
          error := "Invalid token payload" }) ∧
    (∀ c u, jwtDecode secret now tok = .ok c → c.sub = some u → u ≠ "" →
      queryUser db u = none →
      ValidateToken secret now db tok =
        { valid := false, username := "", role := "", error := "User not found" }) := by
  refine ⟨?_, ?_, ?_⟩
  · intro e he
    exact ⟨by simp [ValidateToken, he], jwtDecode_error_nonempty secret now tok e he⟩
  · intro c hc hsub
    rcases hsub with h | h <;> simp [ValidateToken, hc, h]
  · intro c u hc hsub hne hq
    simp [ValidateToken, hc, hsub, hne, hq]

/-- Witness for C1 at the concrete failure inputs: a malformed token, a
well-signed token without `sub`, and a well-signed token whose `sub` names
no user in an empty store. -/
theorem ValidateToken_failure_modes_witness :
    (ValidateToken "s" 0 [] .malformed =
      { valid := false, username := "", role := "", error := "Not enough segments" } ∧
      "Not enough segments" ≠ "") ∧
    ValidateToken "s" 0 [] noSubToken =
      { valid := false, username := "", role := "", error := "Invalid token payload" } ∧
    ValidateToken "s" 0 [] aliceToken =
      { valid := false, username := "", role := "", error := "User not found" } :=
  ⟨(ValidateToken_failure_modes "s" 0 [] .malformed).1 "Not enough segments" rfl,
   (ValidateToken_failure_modes "s" 0 [] noSubToken).2.1 _ rfl (Or.inl rfl),
   (ValidateToken_failure_modes "s" 0 [] aliceToken).2.2
     _ "alice" rfl rfl (by decide) rfl⟩

/-- Claim C2: when the token's signature verifies and its `sub` resolves to
a user row, `ValidateToken` answers `valid=true` with the username and role
taken from that row — the store at validation time — regardless of the
`role` claim embedded in the token, so a role changed in the store after
issuance is the role returned. -/
theorem ValidateToken_role_from_store (secret : String) (now : Int)
    (db : List User) (tok : TokenInput) (c : Claims) (uname : String) (user : User)
    (hdec : jwtDecode secret now tok = .ok c) (hsub : c.sub = some uname)
    (hne : uname ≠ "") (hq : queryUser db uname = some user) :
    ValidateToken secret now db tok =
      { valid := true, username := user.username, role := user.role, error := "" } := by
  simp [ValidateToken, hdec, hsub, hne, hq]

/-- Witness for C2: a token issued while alice's role was "user" is
validated against a store where her role is now "admin"; the verdict
carries "admin", not the token's embedded "user". -/
theorem ValidateToken_role_from_store_witness :
    ValidateToken "s" 0 [aliceAdminRow] aliceToken =
      { valid := true, username := "alice", role := "admin", error := "" } :=
  ValidateToken_role_from_store "s" 0 [aliceAdminRow] aliceToken
    { sub := some "alice", role := some "user", id := none, exp := some 100 }
    "alice" aliceAdminRow rfl rfl (by decide) rfl

/-- Claim C3 (amended): the token the gateway re-signs and attaches as the
downstream bearer credential embeds the authenticated identity's claims
`sub`, `role` and `id`, but carries no `exp` claim at all — no expiry
timestamp, 30-minute or otherwise, is embedded. -/
theorem gw_downstream_token_claims (secret : String) (u : GwUser) :
    gw_downstream_token secret u =
      .signed { sub := some u.username, role := some u.role,
                id := some u.id, exp := none } secret := rfl

/-- Counterexample to claim C3 as stated: the token the gateway re-signs
for the concrete identity alice has no `exp` claim, so it does not embed a
fresh 30-minute expiry timestamp. -/
theorem gw_downstream_token_no_expiry_cex :
    (tokenClaims (gw_downstream_token "k"
      { id := 7, username := "alice", role := "user" })).bind Claims.exp = none := rfl

/-- Claim C8: the `ValidateToken` handler is idempotent and side-effect
free: it leaves the auth service state (store and cache) unchanged, and a
second call on the resulting state returns the same verdict and again
leaves the state unchanged. -/
theorem ValidateTokenRpc_idempotent (secret : String) (now : Int)
    (tok : TokenInput) (st : AuthState) :
    (ValidateTokenRpc secret now tok st).2 = st ∧
    (ValidateTokenRpc secret now tok ((ValidateTokenRpc secret now tok st).2)).1 =
      (ValidateTokenRpc secret now tok st).1 ∧
    (ValidateTokenRpc secret now tok ((ValidateTokenRpc secret now tok st).2)).2 = st :=
  ⟨rfl, rfl, rfl⟩

/-- Claim C9: every verdict `ValidateToken` produces satisfies the
invariant `valid = true ↔ error = ""`, and a `valid = false` verdict
carries empty username and role fields. -/
theorem ValidateToken_verdict_invariant (secret : String) (now : Int)
    (db : List User) (tok : TokenInput) :
    ((ValidateToken secret now db tok).valid = true ↔
      (ValidateToken secret now db tok).error = "") ∧
    ((ValidateToken secret now db tok).valid = false →
      (ValidateToken secret now db tok).username = "" ∧
      (ValidateToken secret now db tok).role = "") := by
  unfold ValidateToken
  cases hdec : jwtDecode secret now tok with
  | error e =>
    have hne := jwtDecode_error_nonempty secret now tok e hdec
    simp [hne]
  | ok c =>
    cases hsub : c.sub with
    | none => simp [hsub]
    | some u =>
      by_cases hu : u = ""
      · simp [hsub, hu]
      · cases hq : queryUser db u with
        | none => simp [hsub, hu, hq]
        | some user => simp [hsub, hu, hq]

/-- Witness for C9 at a concrete invalid token: the malformed token's
verdict has `valid = false`, hence empty username and role. -/
theorem ValidateToken_verdict_invariant_witness :
    (ValidateToken "s" 0 [] .malformed).username = "" ∧
    (ValidateToken "s" 0 [] .malformed).role = "" :=
  (ValidateToken_verdict_invariant "s" 0 [] .malformed).2 rfl

/-- Claim C10: when `login` finds a cached token that decodes successfully
but carries no `exp` claim, it answers 401 "Token missing expiration"
(raised as an `HTTPException`, which the surrounding `except JWTError`
does not catch) instead of falling back to the password check, and the
state is untouched. -/
theorem login_cached_missing_exp (secret : String) (now : Int)
    (uname pw : String) (st : AuthState) (cached : TokenInput) (c : Claims)
    (hc : cacheGet st.cache ("token:" ++ uname) = some (.tok cached))
    (hdec : jwtDecode secret now cached = .ok c) (hexp : c.exp = none) :
    login secret now uname pw st =
      (.httpError 401 "Token missing expiration", st) := by
  simp [login, hc, hdec, hexp]

/-- Witness for C10: a cached well-signed token without `exp` makes `login`
answer 401 "Token missing expiration" even though the store would accept
the password. -/
theorem login_cached_missing_exp_witness :
    login "s" 0 "alice" "right" noExpState =
      (.httpError 401 "Token missing expiration", noExpState) :=
  login_cached_missing_exp "s" 0 "alice" "right" noExpState noExpToken
    { sub := some "alice", role := some "user", id := none, exp := none }
    rfl rfl rfl

/-- Claim C4: a truthy cached token under `token:<username>` whose
signature verifies and whose embedded expiry lies in the future is returned
directly, for any supplied password (no hash comparison); every other cache
outcome (miss, non-token value, failed decode, expiry not in the future)
falls through to the database block, which answers 401
"Invalid credentials" on a missing user or failed hash comparison and on
success mints and caches a fresh token. -/
theorem login_cache_shortcircuit_and_fallback (secret : String) (now : Int)
    (uname pw : String) (st : AuthState) :
    (∀ cached c e, cacheGet st.cache ("token:" ++ uname) = some (.tok cached) →
      jwtDecode secret now cached = .ok c → c.exp = some e → e > now →
      login secret now uname pw st = (.ok cached, st)) ∧
    (cacheGet st.cache ("token:" ++ uname) = none →
      login secret now uname pw st = loginDbCheck secret now uname pw st) ∧
    (∀ s, cacheGet st.cache ("token:" ++ uname) = some (.str s) →
      login secret now uname pw st = loginDbCheck secret now uname pw st) ∧
    (∀ cached err, cacheGet st.cache ("token:" ++ uname) = some (.tok cached) →
      jwtDecode secret now cached = .error err →
      login secret now uname pw st = loginDbCheck secret now uname pw st) ∧
    (∀ cached c e, cacheGet st.cache ("token:" ++ uname) = some (.tok cached) →
      jwtDecode secret now cached = .ok c → c.exp = some e → ¬ e > now →
      login secret now uname pw st = loginDbCheck secret now uname pw st) ∧
    (queryUser st.db uname = none →
      loginDbCheck secret now uname pw st =
        (.httpError 401 "Invalid credentials", st)) ∧
    (∀ user, queryUser st.db uname = some user →
      verifyPassword pw user.hashed_password = false →
      loginDbCheck secret now uname pw st =
        (.httpError 401 "Invalid credentials", st)) ∧
    (∀ user, queryUser st.db uname = some user →
      verifyPassword pw user.hashed_password = true →
      loginDbCheck secret now uname pw st =
        (.ok (create_access_token secret now user.username user.role),
         { st with
           cache := cacheSetex st.cache ("token:" ++ uname)
             (.tok (create_access_token secret now user.username user.role)) })) := by
  refine ⟨?_, ?_, ?_, ?_, ?_, ?_, ?_, ?_⟩
  · intro cached c e hc hdec hexp hgt
    simp [login, hc, hdec, hexp, hgt]
  · intro hc
    simp [login, hc]
  · intro s hc
    simp [login, hc]
  · intro cached err hc hdec
    simp [login, hc, hdec]
  · intro cached c e hc hdec hexp hle
    simp [login, hc, hdec, hexp, hle]
  · intro hq
    simp [loginDbCheck, hq]
  · intro user hq hv
    simp [loginDbCheck, hq, hv]
  · intro user hq hv
    simp [loginDbCheck, hq, hv]

/-- Witness for C4: alice's unexpired cached token is returned even though
the supplied password "wrongpw" is not her password. -/
theorem login_cache_shortcircuit_witness :
    login "s" 0 "alice" "wrongpw" cachedTokenState =
      (.ok aliceToken, cachedTokenState) :=
  (login_cache_shortcircuit_and_fallback "s" 0 "alice" "wrongpw"
      cachedTokenState).1
    aliceToken { sub := some "alice", role := some "user", id := none, exp := some 100 }
    100 rfl rfl rfl (by decide)

/-- Claim C5: when the username is already recorded (a truthy
`user:<username>` cache marker, or a row in the store), `register` fails
with the duplicate-identity 400 error and the user store is left exactly as
it was — no row is created or overwritten, so the first identity's stored
hash is unchanged. -/
theorem register_duplicate_preserves_store (secret : String) (now : Int)
    (uname pw role : String) (st : AuthState)
    (h : cacheTruthy (cacheGet st.cache ("user:" ++ uname)) = true ∨
      queryUser st.db uname ≠ none) :
    ((register secret now uname pw role st).1 =
        .httpError 400 "Username already exists (cached)" ∨
     (register secret now uname pw role st).1 =
        .httpError 400 "Username already exists") ∧
    (register secret now uname pw role st).2.db = st.db := by
  by_cases hc : cacheTruthy (cacheGet st.cache ("user:" ++ uname)) = true
  · exact ⟨Or.inl (by simp [register, hc]), by simp [register, hc]⟩
  · have hq : queryUser st.db uname ≠ none := by
      rcases h with h | h
      · exact absurd h hc
      · exact h
    rcases ho : queryUser st.db uname with _ | user
    · exact absurd ho hq
    · exact ⟨Or.inr (by simp [register, hc, ho]), by simp [register, hc, ho]⟩

/-- Witness for C5: registering "alice" again against a store that already
holds her row fails with 400 "Username already exists" and leaves the
store, and with it her stored hash, unchanged. -/
theorem register_duplicate_preserves_store_witness :
    ((register "s" 0 "alice" "p2" "user" storeOnlyState).1 =
        .httpError 400 "Username already exists (cached)" ∨
     (register "s" 0 "alice" "p2" "user" storeOnlyState).1 =
        .httpError 400 "Username already exists") ∧
    (register "s" 0 "alice" "p2" "user" storeOnlyState).2.db =
      storeOnlyState.db :=
  register_duplicate_preserves_store "s" 0 "alice" "p2" "user" storeOnlyState
    (Or.inr (by decide))

/-- Claim C6 (amended): on RPC transport failure the service-local
authenticator raises the same kind of error as the invalid-verdict
rejection — an `HTTPException` with status 401 — with detail
"gRPC error: <message>" where the invalid-verdict path carries
"Invalid token: <verdict error>"; the two cases are distinguishable only by
those detail strings, which always differ. -/
theorem svc_auth_transport_same_kind (db : List User) (msg : String)
    (v : Verdict) (hv : v.valid = false) :
    svc_get_current_user (.transportError msg) db =
      .httpError 401 ("gRPC error: " ++ msg) ∧
    svc_get_current_user (.reply v) db =
      .httpError 401 ("Invalid token: " ++ v.error) ∧
    ("gRPC error: " ++ msg) ≠ ("Invalid token: " ++ v.error) := by
  refine ⟨rfl, by simp [svc_get_current_user, hv], ?_⟩
  intro h
  have h2 : ("gRPC error: " ++ msg).data = ("Invalid token: " ++ v.error).data :=
    congrArg String.data h
  rw [String.data_append, String.data_append] at h2
  have h3 : ("gRPC error: ").data = 'g' :: "RPC error: ".data := rfl
  have h4 : ("Invalid token: ").data = 'I' :: "nvalid token: ".data := rfl
  rw [h3, h4, List.cons_append, List.cons_append] at h2
  exact absurd (List.head_eq_of_cons_eq h2) (by decide)

/-- Witness for C6 at concrete inputs: a transport failure and an
expired-signature verdict both surface as 401 `HTTPException`s, differing
only in their detail strings. -/
theorem svc_auth_transport_same_kind_witness :
    svc_get_current_user (.transportError "connect failed") [] =
      .httpError 401 ("gRPC error: " ++ "connect failed") ∧
    svc_get_current_user
        (.reply { valid := false, username := "", role := "",
                  error := "Signature has expired." }) [] =
      .httpError 401 ("Invalid token: " ++ "Signature has expired.") ∧
    ("gRPC error: " ++ "connect failed") ≠
      ("Invalid token: " ++ "Signature has expired.") :=
  svc_auth_transport_same_kind [] "connect failed"
    { valid := false, username := "", role := "", error := "Signature has expired." }
    rfl

/-- Counterexample to claim C6 as stated: the transport-failure path and
the invalid-verdict path produce results of the same kind — the same
`httpError` constructor with the same status code 401 — so no error-kind
distinction exists; only the detail strings differ. -/
theorem svc_auth_no_distinct_kind_cex :
    svc_get_current_user (.transportError "x") [] = .httpError 401 "gRPC error: x" ∧
    svc_get_current_user
        (.reply { valid := false, username := "", role := "", error := "bad" }) [] =
      .httpError 401 "Invalid token: bad" :=
  ⟨rfl, rfl⟩

/-- Claim C7 (amended): the gateway authenticator fails with 401 when the
token fails signature or expiry verification, and with 401
"Invalid token payload" when `sub` or `role` is absent from the decoded
payload; a missing `id` claim does not cause a failure — it is defaulted
to 0, and the identity is returned whenever `sub` and `role` are present
and verification succeeds. -/
theorem gw_get_current_user_spec (secret : String) (now : Int)
    (tok : TokenInput) :
    (∀ e, jwtDecode secret now tok = .error e →
      gw_get_current_user secret now tok =
        .httpError 401 "Invalid or expired token") ∧
    (∀ c, jwtDecode secret now tok = .ok c → (c.sub = none ∨ c.role = none) →
      gw_get_current_user secret now tok =
        .httpError 401 "Invalid token payload") ∧
    (∀ c s r, jwtDecode secret now tok = .ok c → c.sub = some s →
      c.role = some r →
      gw_get_current_user secret now tok =
        .ok { id := c.id.getD 0, username := s, role := r }) := by
  refine ⟨?_, ?_, ?_⟩
  · intro e he
    simp [gw_get_current_user, he]
  · intro c hc hmiss
    rcases hmiss with h | h
    · cases hrole : c.role <;> simp [gw_get_current_user, hc, h, hrole]
    · cases hsub : c.sub <;> simp [gw_get_current_user, hc, h, hsub]
  · intro c s r hc hsub hrole
    simp [gw_get_current_user, hc, hsub, hrole]

/-- Witness for C7 (amended) at concrete inputs: a malformed token is
rejected 401, a well-signed token without `role` is rejected 401, and a
well-signed token with `sub` and `role` but no `id` is accepted with id
defaulted to 0. -/
theorem gw_get_current_user_spec_witness :
    gw_get_current_user "k" 0 .malformed =
      .httpError 401 "Invalid or expired token" ∧
    gw_get_current_user "k" 0
        (.signed { sub := some "alice", role := none, id := none, exp := none } "k") =
      .httpError 401 "Invalid token payload" ∧
    gw_get_current_user "s" 0 noExpToken =
      .ok { id := 0, username := "alice", role := "user" } :=
  ⟨(gw_get_current_user_spec "k" 0 .malformed).1 "Not enough segments" rfl,
   (gw_get_current_user_spec "k" 0
      (.signed { sub := some "alice", role := none, id := none, exp := none } "k")).2.1
     _ rfl (Or.inr rfl),
   (gw_get_current_user_spec "s" 0 noExpToken).2.2 _ "alice" "user" rfl rfl rfl⟩

/-- Counterexample to claim C7 as stated: `noExpToken` is well signed and
carries no `id` claim, yet the gateway authenticator does not fail with
401 — it returns the identity with `id` defaulted to 0. -/
theorem gw_auth_missing_id_not_rejected_cex :
    tokenClaims noExpToken =
      some { sub := some "alice", role := some "user", id := none, exp := none } ∧
    gw_get_current_user "s" 0 noExpToken =
      .ok { id := 0, username := "alice", role := "user" } :=
  ⟨rfl, rfl⟩
